import Mathlib

/-!
Verification development for the multi-format document generation subsystem
of the parcial-sysacad repository.

The definitions below are a shallow embedding of
  app/services/documentos_office_service_refactored.py  and
  app/services/alumno_service.py.
Python exceptions are modelled as an explicit error type (Except), the
module-level registry dict as an association list with dict semantics
(insertion order preserved, in-place value replacement on an existing key),
and external collaborators (Flask template rendering, WeasyPrint, the ODT and
DOCX template libraries, the filesystem) as explicit environments whose
success or failure is injected as data.
-/

set_option autoImplicit false

/-- Entity Universidad: only the link structure matters for the claims. -/
structure Universidad where
  nombre : String
deriving DecidableEq, Repr

/-- Entity Facultad with its (nullable) universidad relationship. -/
structure Facultad where
  nombre : String
  universidad : Option Universidad
deriving DecidableEq, Repr

/-- Entity Especialidad with its (nullable) facultad relationship. -/
structure Especialidad where
  nombre : String
  facultad : Option Facultad
deriving DecidableEq, Repr

/-- Entity Alumno with its (nullable) especialidad relationship. -/
structure Alumno where
  nombre : String
  especialidad : Option Especialidad
deriving DecidableEq, Repr

/-- Universe of Python exceptions relevant to this subsystem. The code under
src/ only ever raises attributeError (attribute access on None), valueError
(DocumentGeneratorFactory.create) and runtimeError (PDFDocumentGenerator.generar
and, as modelled library failures, the rendering backends).
The missingRelationError constructor exists so that statements can speak about
the dedicated error type named by the specification; no embedded code
constructs it. -/
inductive PyError where
  | attributeError (msg : String)
  | valueError (msg : String)
  | runtimeError (msg : String)
  | missingRelationError (msg : String)
deriving DecidableEq, Repr

/-- Single quote character, used inside embedded Python message strings. -/
def squote : String := String.singleton (Char.ofNat 39)

/-- Message of the AttributeError Python raises on attribute access on None. -/
def noneTypeAttrMsg (attr : String) : String :=
  squote ++ "NoneType" ++ squote ++ " object has no attribute " ++ squote ++ attr ++ squote

/-- Values stored in the render context dict built by AlumnoService.
noneV models Python None stored as a dict value. -/
inductive CtxValue where
  | alumnoV (a : Alumno)
  | especialidadV (e : Especialidad)
  | facultadV (f : Facultad)
  | universidadV (u : Universidad)
  | noneV
  | strV (s : String)
deriving DecidableEq, Repr

/-- Render context: an insertion-ordered string-keyed dict. -/
abbrev RenderContext := List (String × CtxValue)

/-- Calendar date, standing for the value of datetime.datetime.now() at the
moment of the call. -/
structure Fecha where
  day : Nat
  month : Nat
  year : Nat
deriving DecidableEq, Repr

/-- Full month name as produced by strftime directive percent-B under the
default C locale. -/
def monthName : Nat → String
  | 1 => "January"
  | 2 => "February"
  | 3 => "March"
  | 4 => "April"
  | 5 => "May"
  | 6 => "June"
  | 7 => "July"
  | 8 => "August"
  | 9 => "September"
  | 10 => "October"
  | 11 => "November"
  | 12 => "December"
  | _ => ""

/-- Zero-padded two-digit day as produced by strftime directive percent-d. -/
def pad2 (n : Nat) : String :=
  if n < 10 then "0" ++ toString n else toString n

/-- Embedding of AlumnoService._obtener_fecha_actual: formats the current
date with strftime format (percent-d de percent-B de percent-Y). -/
def obtenerFechaActual (hoy : Fecha) : String :=
  pad2 hoy.day ++ " de " ++ monthName hoy.month ++ " de " ++ toString hoy.year

/-- Embedding of AlumnoService._obtener_contexto_alumno.
Source control flow:
  especialidad = alumno.especialidad        (plain attribute read, never raises)
  facultad = especialidad.facultad          (AttributeError if especialidad is None)
  universidad = facultad.universidad        (AttributeError if facultad is None;
                                             the resulting value itself may be None)
then the five-entry dict is returned. Note that a None universidad is stored
in the dict as-is: no check guards the last link. -/
def obtenerContextoAlumno (hoy : Fecha) (alumno : Alumno) :
    Except PyError RenderContext :=
  let especialidad := alumno.especialidad
  match especialidad with
  | none => .error (.attributeError (noneTypeAttrMsg "facultad"))
  | some esp =>
    match esp.facultad with
    | none => .error (.attributeError (noneTypeAttrMsg "universidad"))
    | some fac =>
      let universidad := fac.universidad
      .ok [("alumno", .alumnoV alumno),
           ("especialidad", .especialidadV esp),
           ("facultad", .facultadV fac),
           ("universidad",
             match universidad with
             | some u => .universidadV u
             | none => .noneV),
           ("fecha", .strV (obtenerFechaActual hoy))]

/-- Generator classes. The three constructors pdfC, odtC, docxC embed
PDFDocumentGenerator, ODTDocumentGenerator and DOCXDocumentGenerator; stub
embeds an arbitrary user-defined DocumentGenerator subclass (the registry
accepts any subclass, so the model must be able to range over them). -/
inductive GeneratorClass where
  | pdfC
  | odtC
  | docxC
  | stub (ext : String) (tag : Nat)
deriving DecidableEq, Repr

/-- Embedding of the per-class extension property (PDFDocumentGenerator
returns "pdf", ODTDocumentGenerator "odt", DOCXDocumentGenerator "docx"; a
stub class returns its own fixed string). -/
def GeneratorClass.extensionOf : GeneratorClass → String
  | .pdfC => "pdf"
  | .odtC => "odt"
  | .docxC => "docx"
  | .stub e _ => e

/-- An instance produced by instantiating a generator class, as in the source
expression generator_class() inside DocumentGeneratorFactory.create. -/
structure GeneratorInstance where
  cls : GeneratorClass
deriving DecidableEq, Repr

/-- Python truthiness of a generator instance. None of the generator classes
defines a bool or len dunder method, so every instance is truthy: this is the
 default object truthiness rule of Python, embedded as the constant true. -/
def pyTruthy (_i : GeneratorInstance) : Bool := true

/-- Python str.lower restricted to the character-wise ASCII case mapping,
written over the character list so the kernel can evaluate it on literals.
All format identifiers in play are ASCII, where this agrees with Python. -/
def pyLower (s : String) : String := ⟨s.data.map Char.toLower⟩

/-- Registry state: the class-level dict DocumentGeneratorFactory._generators,
as an insertion-ordered association list. -/
abbrev Registry := List (String × GeneratorClass)

namespace DocumentGeneratorFactory

/-- Embedding of DocumentGeneratorFactory.register: the dict assignment
cls._generators[format_type.lower()] = generator_class. A Python dict keeps
the insertion position of an existing key and replaces its value in place;
a fresh key is appended at the end. -/
def register (d : Registry) (format_type : String)
    (generator_class : GeneratorClass) : Registry :=
  let key := pyLower format_type
  if d.any (fun p => p.1 == key) then
    d.map (fun p => if p.1 == key then (key, generator_class) else p)
  else
    d ++ [(key, generator_class)]

/-- Embedding of DocumentGeneratorFactory.get_available_formats:
list(cls._generators.keys()). -/
def getAvailableFormats (d : Registry) : List String :=
  d.map (fun p => p.1)

/-- Message of the ValueError raised by create for an unregistered format:
the f-string Formato (format_type) no soportado. Formatos disponibles:
followed by the comma-join of the registered keys. -/
def unsupportedMsg (format_type : String) (d : Registry) : String :=
  "Formato " ++ squote ++ format_type ++ squote ++ " no soportado. " ++
  "Formatos disponibles: " ++ String.intercalate ", " (getAvailableFormats d)

/-- Embedding of DocumentGeneratorFactory.create: looks up
format_type.lower() with dict.get; the source guard is (if not
generator_class), and since class objects are always truthy in Python this is
exactly the None test on the result of get. On a hit it returns the
instantiated class generator_class(). -/
def create (d : Registry) (format_type : String) :
    Except PyError GeneratorInstance :=
  match d.find? (fun p => p.1 == pyLower format_type) with
  | some p => .ok ⟨p.2⟩
  | none => .error (.valueError (unsupportedMsg format_type d))

end DocumentGeneratorFactory

/-- Outcome of the module-level try of importing weasyprint (lines 21 to 26):
the import either succeeds, or raises ImportError or OSError, both of which
the module catches. -/
inductive ImportOutcome where
  | ok
  | importError
  | osError
deriving DecidableEq, Repr

/-- Embedding of the module-level flag WEASYPRINT_AVAILABLE: true exactly
when the import succeeded. -/
def weasyprintAvailable : ImportOutcome → Bool
  | .ok => true
  | .importError => false
  | .osError => false

/-- State established by importing the module: the availability flag and the
populated registry. -/
structure ModuleState where
  available : Bool
  registry : Registry
deriving Repr

/-- Registry contents after the three unconditional register calls at module
bottom (lines 197 to 199). -/
def initialRegistry : Registry :=
  DocumentGeneratorFactory.register
    (DocumentGeneratorFactory.register
      (DocumentGeneratorFactory.register [] "pdf" .pdfC) "odt" .odtC)
    "docx" .docxC

/-- Embedding of importing the module documentos_office_service_refactored:
the weasyprint try/except sets the flag, then the three built-in generators
are registered unconditionally. The function is total in the import outcome:
an import failure of the PDF backend never aborts module initialization. -/
def moduleLoad (o : ImportOutcome) : ModuleState :=
  { available := weasyprintAvailable o
    registry := initialRegistry }

/-- Embedding of the legacy wrapper obtener_tipo_documento, whose body is
return DocumentGeneratorFactory.create(tipo). -/
def obtenerTipoDocumento (d : Registry) (tipo : String) :
    Except PyError GeneratorInstance :=
  DocumentGeneratorFactory.create d tipo

/-- Embedding of the document-resolution step of
AlumnoService.generar_certificado_alumno_regular (lines 37 to 39):
  documento = obtener_tipo_documento(tipo)
  if not documento: return None
An exception from create propagates; otherwise the truthiness check decides
between returning None (modelled as ok none) and continuing with the
instance (ok (some documento)). -/
def certificadoDocumentoPaso (d : Registry) (tipo : String) :
    Except PyError (Option GeneratorInstance) :=
  match obtenerTipoDocumento d tipo with
  | .error e => .error e
  | .ok documento =>
    if pyTruthy documento = false then .ok none
    else .ok (some documento)

/-- Template path used by PDFDocumentGenerator.generar (line 76): the Flask
template name built by the f-string (carpeta)/(plantilla).html. The suffix is
the fixed literal .html, independent of the extension property of the class. -/
def pdfTemplatePath (carpeta plantilla : String) : String :=
  carpeta ++ "/" ++ plantilla ++ ".html"

/-- Template path used by ODTDocumentGenerator.generar (line 95):
os.path.join(current_app.root_path, carpeta, plantilla + .odt), with
os.path.join modelled as slash concatenation (no component is absolute and
none carries a trailing separator in the embedded call). -/
def odtTemplatePath (root carpeta plantilla : String) : String :=
  root ++ "/" ++ carpeta ++ "/" ++ plantilla ++ ".odt"

/-- Template path used by DOCXDocumentGenerator.generar (line 122), same
os.path.join convention with the .docx suffix. -/
def docxTemplatePath (root carpeta plantilla : String) : String :=
  root ++ "/" ++ carpeta ++ "/" ++ plantilla ++ ".docx"

/-- Message of the RuntimeError raised by PDFDocumentGenerator.generar when
WEASYPRINT_AVAILABLE is false (lines 71 to 74); the second sentence is the
remediation hint. -/
def pdfUnavailableMsg : String :=
  "WeasyPrint no está disponible. " ++
  "Para generar PDFs, instala GTK+ en Windows o usa un ambiente Linux."

/-- External collaborators of PDFDocumentGenerator.generar: Flask
render_template, the WeasyPrint write_pdf call, and the static base url from
url_for. Their behaviour is injected so theorems can quantify over it. -/
structure RenderEnv where
  render_template : String → RenderContext → Except PyError String
  write_pdf : String → String → Except PyError (List Nat)
  base_url : String

/-- Embedding of PDFDocumentGenerator.generar: the availability guard raises
RuntimeError, otherwise the template is rendered to an HTML string at
pdfTemplatePath and converted to PDF bytes; any library exception
propagates unchanged. -/
def pdfGenerar (env : RenderEnv) (weasyprint_available : Bool)
    (carpeta plantilla : String) (context : RenderContext) :
    Except PyError (List Nat) :=
  if weasyprint_available = false then
    .error (.runtimeError pdfUnavailableMsg)
  else
    match env.render_template (pdfTemplatePath carpeta plantilla) context with
    | .error e => .error e
    | .ok html_string =>
      match env.write_pdf html_string env.base_url with
      | .error e => .error e
      | .ok bytes_data => .ok bytes_data

/-- Filesystem facet relevant to the scratch-file claims: whether the
temporary file created by tempfile.NamedTemporaryFile(delete=False) is
present on disk. -/
structure FsState where
  scratchExists : Bool
deriving DecidableEq, Repr

/-- External collaborators of ODTDocumentGenerator.generar, with the success
or failure of each library call injected as data. A false field stands for
the call raising an exception (modelled as a RuntimeError naming the stage,
since generar installs no handler and adds no information of its own). -/
structure OdtEnv where
  root_path : String
  template_open : String → Bool
  render_ok : Bool
  pack_ok : Bool
  read_ok : Bool
  packed_bytes : List Nat

/-- Embedding of ODTDocumentGenerator.generar together with the scratch-file
state it leaves behind. Source order (lines 91 to 109):
  line 98:  tempfile.NamedTemporaryFile(suffix=.odt, delete=False) creates
            the scratch file on disk and keeps it (delete=False);
  line 101: ODTTemplate(path_template) opens the template (raises if absent);
  line 102: odt_renderer.render may raise;
  line 103: template.pack(temp_path) may raise;
  line 104: open(temp_path).read() may raise;
  line 107: os.unlink(temp_path) removes the scratch file.
There is no try/finally: an exception at any stage after line 98 propagates
past the unlink, so each early exit below returns the state in which the
scratch file still exists. -/
def odtGenerarRun (env : OdtEnv) (carpeta plantilla : String) :
    Except PyError (List Nat) × FsState :=
  let path_template := odtTemplatePath env.root_path carpeta plantilla
  let fsAfterTemp : FsState := { scratchExists := true }
  if env.template_open path_template = false then
    (.error (.runtimeError "ODTTemplate open failed"), fsAfterTemp)
  else if env.render_ok = false then
    (.error (.runtimeError "odt render failed"), fsAfterTemp)
  else if env.pack_ok = false then
    (.error (.runtimeError "odt pack failed"), fsAfterTemp)
  else if env.read_ok = false then
    (.error (.runtimeError "odt scratch read failed"), fsAfterTemp)
  else
    (.ok env.packed_bytes, { scratchExists := false })

/-- External collaborators of DOCXDocumentGenerator.generar, in the same
style as OdtEnv (save_ok stands for doc.save(temp_path)). -/
structure DocxEnv where
  root_path : String
  template_open : String → Bool
  render_ok : Bool
  save_ok : Bool
  read_ok : Bool
  packed_bytes : List Nat

/-- Embedding of DOCXDocumentGenerator.generar with its scratch-file state.
Source order (lines 119 to 138) differs from the ODT generator in one point:
DocxTemplate(path_template) is opened at line 123, BEFORE the scratch file is
created at line 126, so a template-open failure leaves no scratch file.
After line 126 the pattern is the ODT one: render (line 130), save
(line 131), read back (line 133) may each raise and skip the unlink at
line 136; only the success path removes the scratch file. -/
def docxGenerarRun (env : DocxEnv) (carpeta plantilla : String) :
    Except PyError (List Nat) × FsState :=
  let path_template := docxTemplatePath env.root_path carpeta plantilla
  if env.template_open path_template = false then
    (.error (.runtimeError "DocxTemplate open failed"), { scratchExists := false })
  else
    let fsAfterTemp : FsState := { scratchExists := true }
    if env.render_ok = false then
      (.error (.runtimeError "docx render failed"), fsAfterTemp)
    else if env.save_ok = false then
      (.error (.runtimeError "docx save failed"), fsAfterTemp)
    else if env.read_ok = false then
      (.error (.runtimeError "docx scratch read failed"), fsAfterTemp)
    else
      (.ok env.packed_bytes, { scratchExists := false })

lemma anyKeyOfMem (d : Registry) (k : String)
    (h : k ∈ DocumentGeneratorFactory.getAvailableFormats d) :
    d.any (fun p => p.1 == k) = true := by
  simp only [DocumentGeneratorFactory.getAvailableFormats, List.mem_map] at h
  obtain ⟨p, hp, he⟩ := h
  simp only [List.any_eq_true]
  exact ⟨p, hp, by simp [he]⟩

lemma findNoneOfNotMem (d : Registry) (k : String)
    (h : k ∉ DocumentGeneratorFactory.getAvailableFormats d) :
    d.find? (fun p => p.1 == k) = none := by
  rw [List.find?_eq_none]
  intro p hp
  simp only [DocumentGeneratorFactory.getAvailableFormats, List.mem_map] at h
  simp only [beq_iff_eq]
  intro he
  exact h ⟨p, hp, he⟩

lemma findAfterUpdate (d : Registry) (key : String) (g : GeneratorClass)
    (h : d.any (fun p => p.1 == key) = true) :
    (d.map (fun p => if p.1 == key then (key, g) else p)).find?
      (fun p => p.1 == key) = some (key, g) := by
  induction d with
  | nil => simp at h
  | cons p d ih =>
    simp only [List.map_cons]
    by_cases hp : (p.1 == key) = true
    · have h1 : (if (p.1 == key) = true then ((key, g) : String × GeneratorClass) else p) = (key, g) :=
        if_pos hp
      rw [h1, List.find?_cons_of_pos]
      simp
    · have h1 : (if (p.1 == key) = true then ((key, g) : String × GeneratorClass) else p) = p :=
        if_neg hp
      have hb : (p.1 == key) = false := Bool.not_eq_true _ |>.mp hp
      rw [h1, List.find?_cons, hb]
      apply ih
      simp only [List.any_cons, Bool.or_eq_true] at h
      rcases h with h2 | h2
      · exact absurd h2 hp
      · exact h2

/-- Claim C9: for a student whose ancestor chain is fully populated, context
assembly returns the mapping holding all four entities (alumno, especialidad,
facultad, universidad) together with the always-injected date field, the
current date at call time formatted as day, full month name and year by
obtenerFechaActual. -/
theorem contexto_full_chain (hoy : Fecha) (alumno : Alumno)
    (e : Especialidad) (f : Facultad) (u : Universidad)
    (he : alumno.especialidad = some e) (hf : e.facultad = some f)
    (hu : f.universidad = some u) :
    obtenerContextoAlumno hoy alumno =
      .ok [("alumno", .alumnoV alumno),
           ("especialidad", .especialidadV e),
           ("facultad", .facultadV f),
           ("universidad", .universidadV u),
           ("fecha", .strV (obtenerFechaActual hoy))] := by
  simp [obtenerContextoAlumno, he, hf, hu]

/-- Witness for contexto_full_chain at a concrete fully-populated chain. -/
theorem contexto_full_chain_witness :
    obtenerContextoAlumno ⟨12, 10, 2025⟩
        ⟨"Ana", some ⟨"Mathematics", some ⟨"Engineering",
          some ⟨"State University"⟩⟩⟩⟩ =
      .ok [("alumno", .alumnoV ⟨"Ana", some ⟨"Mathematics",
              some ⟨"Engineering", some ⟨"State University"⟩⟩⟩⟩),
           ("especialidad", .especialidadV ⟨"Mathematics",
              some ⟨"Engineering", some ⟨"State University"⟩⟩⟩),
           ("facultad", .facultadV ⟨"Engineering", some ⟨"State University"⟩⟩),
           ("universidad", .universidadV ⟨"State University"⟩),
           ("fecha", .strV (obtenerFechaActual ⟨12, 10, 2025⟩))] :=
  contexto_full_chain ⟨12, 10, 2025⟩ _ _ _ _ rfl rfl rfl

/-- Claim C3 counterexample. The claim states that every null link in the
fixed ancestor chain makes context assembly fail with a MissingRelationError.
At the concrete student whose facultad has universidad = None, assembly does
not fail at all: it returns a context whose universidad entry is None. At the
concrete student whose especialidad has facultad = None, assembly fails, but
with the generic AttributeError of attribute access on None, not with a
dedicated MissingRelationError. -/
theorem contexto_missing_relation_cex :
    obtenerContextoAlumno ⟨1, 1, 2025⟩
        ⟨"A", some ⟨"Math", some ⟨"Eng", none⟩⟩⟩ =
      .ok [("alumno", .alumnoV ⟨"A", some ⟨"Math", some ⟨"Eng", none⟩⟩⟩),
           ("especialidad", .especialidadV ⟨"Math", some ⟨"Eng", none⟩⟩),
           ("facultad", .facultadV ⟨"Eng", none⟩),
           ("universidad", .noneV),
           ("fecha", .strV (obtenerFechaActual ⟨1, 1, 2025⟩))]
    ∧ obtenerContextoAlumno ⟨1, 1, 2025⟩ ⟨"B", some ⟨"Math", none⟩⟩ =
      .error (.attributeError (noneTypeAttrMsg "universidad")) :=
  ⟨rfl, rfl⟩

/-- Claim C3 as amended: a null especialidad or a null facultad link makes
context assembly raise the generic AttributeError produced by attribute
access on None (so assembly does fail rather than return a null context, but
not with a dedicated MissingRelationError); a null universidad link does not
make assembly fail at all: the context is returned with a None universidad
entry. -/
theorem contexto_null_link_behaviour :
    (∀ (hoy : Fecha) (a : Alumno), a.especialidad = none →
      obtenerContextoAlumno hoy a =
        .error (.attributeError (noneTypeAttrMsg "facultad")))
    ∧ (∀ (hoy : Fecha) (a : Alumno) (e : Especialidad),
        a.especialidad = some e → e.facultad = none →
        obtenerContextoAlumno hoy a =
          .error (.attributeError (noneTypeAttrMsg "universidad")))
    ∧ (∀ (hoy : Fecha) (a : Alumno) (e : Especialidad) (f : Facultad),
        a.especialidad = some e → e.facultad = some f →
        f.universidad = none →
        obtenerContextoAlumno hoy a =
          .ok [("alumno", .alumnoV a),
               ("especialidad", .especialidadV e),
               ("facultad", .facultadV f),
               ("universidad", .noneV),
               ("fecha", .strV (obtenerFechaActual hoy))]) := by
  refine ⟨?_, ?_, ?_⟩ <;> intros <;> simp [obtenerContextoAlumno, *]

/-- Witness for contexto_null_link_behaviour at three concrete students. -/
theorem contexto_null_link_behaviour_witness :
    obtenerContextoAlumno ⟨2, 3, 2025⟩ ⟨"C", none⟩ =
      .error (.attributeError (noneTypeAttrMsg "facultad"))
    ∧ obtenerContextoAlumno ⟨2, 3, 2025⟩ ⟨"D", some ⟨"M", none⟩⟩ =
      .error (.attributeError (noneTypeAttrMsg "universidad"))
    ∧ obtenerContextoAlumno ⟨2, 3, 2025⟩
        ⟨"E", some ⟨"M", some ⟨"F", none⟩⟩⟩ =
      .ok [("alumno", .alumnoV ⟨"E", some ⟨"M", some ⟨"F", none⟩⟩⟩),
           ("especialidad", .especialidadV ⟨"M", some ⟨"F", none⟩⟩),
           ("facultad", .facultadV ⟨"F", none⟩),
           ("universidad", .noneV),
           ("fecha", .strV (obtenerFechaActual ⟨2, 3, 2025⟩))] :=
  ⟨contexto_null_link_behaviour.1 ⟨2, 3, 2025⟩ ⟨"C", none⟩ rfl,
   contexto_null_link_behaviour.2.1 ⟨2, 3, 2025⟩ ⟨"D", some ⟨"M", none⟩⟩
     ⟨"M", none⟩ rfl rfl,
   contexto_null_link_behaviour.2.2 ⟨2, 3, 2025⟩
     ⟨"E", some ⟨"M", some ⟨"F", none⟩⟩⟩ ⟨"M", some ⟨"F", none⟩⟩
     ⟨"F", none⟩ rfl rfl rfl⟩

/-- Claim C5: after module initialization the three built-in identifiers pdf,
odt and docx are exactly the ones listed by get_available_formats, and this
is independent of the weasyprint import outcome: registration of pdf is
unconditional and never consults the availability flag. -/
theorem builtin_formats_registered_unconditionally :
    ∀ (o : ImportOutcome),
      DocumentGeneratorFactory.getAvailableFormats (moduleLoad o).registry =
        ["pdf", "odt", "docx"]
      ∧ (moduleLoad o).registry = [("pdf", .pdfC), ("odt", .odtC), ("docx", .docxC)] := by
  intro o
  exact ⟨rfl, rfl⟩

/-- Claim C4: when the weasyprint import failed, module load still completes
(the flag is false and the registry is fully populated) and every call of
PDFDocumentGenerator.generar, whatever the rendering environment, template
and context, raises the RuntimeError carrying the remediation hint of
pdfUnavailableMsg. -/
theorem pdf_backend_unavailable_call_time (o : ImportOutcome)
    (ho : weasyprintAvailable o = false) (env : RenderEnv)
    (carpeta plantilla : String) (context : RenderContext) :
    (moduleLoad o).available = false
    ∧ pdfGenerar env (moduleLoad o).available carpeta plantilla context =
        .error (.runtimeError pdfUnavailableMsg)
    ∧ DocumentGeneratorFactory.getAvailableFormats (moduleLoad o).registry =
        ["pdf", "odt", "docx"] := by
  have h : (moduleLoad o).available = false := ho
  refine ⟨h, ?_, rfl⟩
  rw [h]
  rfl

/-- Witness for pdf_backend_unavailable_call_time at the concrete
ImportError outcome and a concrete environment. -/
theorem pdf_backend_unavailable_call_time_witness :
    (moduleLoad .importError).available = false
    ∧ pdfGenerar ⟨fun _ _ => .ok "", fun _ _ => .ok [], ""⟩
        (moduleLoad .importError).available "certificado" "certificado_pdf" [] =
        .error (.runtimeError pdfUnavailableMsg)
    ∧ DocumentGeneratorFactory.getAvailableFormats
        (moduleLoad .importError).registry = ["pdf", "odt", "docx"] :=
  pdf_backend_unavailable_call_time .importError rfl
    ⟨fun _ _ => .ok "", fun _ _ => .ok [], ""⟩ "certificado" "certificado_pdf" []

/-- Claim C6: for a format_type whose lowercase form is not a registered key,
create raises the ValueError whose message (unsupportedMsg) names the format
and lists, comma-separated, exactly the currently registered identifiers of
get_available_formats. -/
theorem create_unsupported_format (d : Registry) (t : String)
    (h : pyLower t ∉ DocumentGeneratorFactory.getAvailableFormats d) :
    DocumentGeneratorFactory.create d t =
      .error (.valueError (DocumentGeneratorFactory.unsupportedMsg t d)) := by
  unfold DocumentGeneratorFactory.create
  rw [findNoneOfNotMem d _ h]

/-- Witness for create_unsupported_format: create of xyz on the initial
registry raises the ValueError listing pdf, odt, docx. -/
theorem create_unsupported_format_witness :
    DocumentGeneratorFactory.create initialRegistry "xyz" =
      .error (.valueError
        (DocumentGeneratorFactory.unsupportedMsg "xyz" initialRegistry)) :=
  create_unsupported_format initialRegistry "xyz" (by decide)

lemma memOfAnyKey (d : Registry) (k : String)
    (h : d.any (fun p => p.1 == k) = true) :
    k ∈ DocumentGeneratorFactory.getAvailableFormats d := by
  simp only [List.any_eq_true] at h
  obtain ⟨p, hp, he⟩ := h
  simp only [DocumentGeneratorFactory.getAvailableFormats, List.mem_map]
  exact ⟨p, hp, beq_iff_eq.mp he⟩

/-- Claim C8: register is last-write-wins. Registering a key whose lowercase
form is fresh grows the registry by exactly one entry; registering a key
whose lowercase form is present keeps the size unchanged and rebinds it, so
create on that key now returns an instance of the newly registered class. -/
theorem register_last_write_wins :
    (∀ (d : Registry) (k : String) (g : GeneratorClass),
      pyLower k ∉ DocumentGeneratorFactory.getAvailableFormats d →
      (DocumentGeneratorFactory.register d k g).length = d.length + 1)
    ∧ (∀ (d : Registry) (k : String) (g : GeneratorClass),
      pyLower k ∈ DocumentGeneratorFactory.getAvailableFormats d →
      (DocumentGeneratorFactory.register d k g).length = d.length
      ∧ DocumentGeneratorFactory.create
          (DocumentGeneratorFactory.register d k g) k = .ok ⟨g⟩) := by
  constructor
  · intro d k g h
    have hany : (d.any fun p => p.1 == pyLower k) = false := by
      cases hv : d.any (fun p => p.1 == pyLower k)
      · rfl
      · exact absurd (memOfAnyKey d _ hv) h
    simp [DocumentGeneratorFactory.register, hany]
  · intro d k g h
    have hany := anyKeyOfMem d (pyLower k) h
    have hreg : DocumentGeneratorFactory.register d k g =
        d.map (fun p => if p.1 == pyLower k then (pyLower k, g) else p) := by
      simp [DocumentGeneratorFactory.register, hany]
    constructor
    · rw [hreg, List.length_map]
    · rw [hreg]
      unfold DocumentGeneratorFactory.create
      rw [findAfterUpdate d (pyLower k) g hany]

/-- Witness for register_last_write_wins: registering Foo (fresh after
lowercasing) grows the initial registry to four entries; re-registering PDF
(already present as pdf) keeps three entries and create returns an instance
of the newly bound stub class. -/
theorem register_last_write_wins_witness :
    (DocumentGeneratorFactory.register initialRegistry "Foo"
        (.stub "foo" 0)).length = initialRegistry.length + 1
    ∧ ((DocumentGeneratorFactory.register initialRegistry "PDF"
          (.stub "x" 1)).length = initialRegistry.length
      ∧ DocumentGeneratorFactory.create
          (DocumentGeneratorFactory.register initialRegistry "PDF"
            (.stub "x" 1)) "PDF" = .ok ⟨.stub "x" 1⟩) :=
  ⟨register_last_write_wins.1 initialRegistry "Foo" (.stub "foo" 0) (by decide),
   register_last_write_wins.2 initialRegistry "PDF" (.stub "x" 1) (by decide)⟩

/-- Claim C7 counterexample. The claim asserts that every identifier present
in the registry maps to a generator whose extension equals the identifier.
register does not constrain the class it stores: after the reachable call
register(foo, PDFDocumentGenerator), the identifier foo is listed, create
returns a PDFDocumentGenerator instance, and its extension is pdf, not foo. -/
theorem create_extension_mismatch_cex :
    "foo" ∈ DocumentGeneratorFactory.getAvailableFormats
        (DocumentGeneratorFactory.register initialRegistry "foo" .pdfC)
    ∧ DocumentGeneratorFactory.create
        (DocumentGeneratorFactory.register initialRegistry "foo" .pdfC)
        "foo" = .ok ⟨.pdfC⟩
    ∧ GeneratorClass.extensionOf .pdfC ≠ "foo" :=
  ⟨by decide, rfl, by decide⟩

/-- Claim C7 as amended: the extension-matches-identifier property holds for
the three built-in bindings of the initial registry (create of each listed
identifier returns an instance whose class extension equals that identifier),
but register does not enforce it, so it is not an invariant of arbitrary
registry states. -/
theorem create_extension_matches_builtin (f : String)
    (h : f ∈ DocumentGeneratorFactory.getAvailableFormats initialRegistry) :
    ∃ i : GeneratorInstance,
      DocumentGeneratorFactory.create initialRegistry f = .ok i
      ∧ i.cls.extensionOf = f := by
  have h3 : f ∈ ["pdf", "odt", "docx"] := h
  have h2 : f = "pdf" ∨ f = "odt" ∨ f = "docx" := by simpa using h3
  rcases h2 with h2 | h2 | h2 <;> subst h2
  · exact ⟨⟨.pdfC⟩, rfl, rfl⟩
  · exact ⟨⟨.odtC⟩, rfl, rfl⟩
  · exact ⟨⟨.docxC⟩, rfl, rfl⟩

/-- Witness for create_extension_matches_builtin at the identifier pdf. -/
theorem create_extension_matches_builtin_witness :
    ∃ i : GeneratorInstance,
      DocumentGeneratorFactory.create initialRegistry "pdf" = .ok i
      ∧ i.cls.extensionOf = "pdf" :=
  create_extension_matches_builtin "pdf" (by decide)

/-- Claim C10: the legacy obtener_tipo_documento is extensionally equal to
DocumentGeneratorFactory.create on every registry and format string, its
successful results are always truthy (generator classes define no bool or
len dunder, so Python default truthiness applies), and consequently the
null-check branch of generar_certificado_alumno_regular can never be taken:
certificadoDocumentoPaso never produces the return None outcome. -/
theorem obtener_tipo_documento_refines_create (d : Registry) (t : String) :
    obtenerTipoDocumento d t = DocumentGeneratorFactory.create d t
    ∧ (∀ i : GeneratorInstance,
        obtenerTipoDocumento d t = .ok i → pyTruthy i = true)
    ∧ certificadoDocumentoPaso d t ≠ .ok none := by
  refine ⟨rfl, fun i _ => rfl, ?_⟩
  unfold certificadoDocumentoPaso
  cases hc : obtenerTipoDocumento d t with
  | error e => simp
  | ok documento => simp [pyTruthy]

/-- Witness for obtener_tipo_documento_refines_create at the initial registry
and the identifier pdf, discharging the inner implication at the concrete
instance it returns. -/
theorem obtener_tipo_documento_refines_create_witness :
    obtenerTipoDocumento initialRegistry "pdf" =
      DocumentGeneratorFactory.create initialRegistry "pdf"
    ∧ pyTruthy ⟨.pdfC⟩ = true
    ∧ certificadoDocumentoPaso initialRegistry "pdf" ≠ .ok none :=
  ⟨(obtener_tipo_documento_refines_create initialRegistry "pdf").1,
   (obtener_tipo_documento_refines_create initialRegistry "pdf").2.1 ⟨.pdfC⟩ rfl,
   (obtener_tipo_documento_refines_create initialRegistry "pdf").2.2⟩

/-- Claim C2 counterexample. The claim asserts that every generator,
including the PDF one, resolves its template at
folder/template_name.(extension). The PDF generator resolves the template at
the fixed .html suffix of line 76, while its extension property is pdf: at
the concrete pair used by AlumnoService the resolved path is not the
.pdf-suffixed one the claim requires. -/
theorem pdf_template_extension_mismatch_cex :
    GeneratorClass.extensionOf .pdfC = "pdf"
    ∧ pdfTemplatePath "certificado" "certificado_pdf" =
        "certificado/certificado_pdf.html"
    ∧ pdfTemplatePath "certificado" "certificado_pdf" ≠
        "certificado/certificado_pdf" ++ "." ++ GeneratorClass.extensionOf .pdfC :=
  ⟨rfl, rfl, by decide⟩

/-- Claim C2 as amended: the ODT and DOCX generators resolve their templates
at folder/template_name suffixed with a dot and their own extension value
(under the application root); the PDF generator instead resolves its template
with the fixed suffix .html, which is not dot-extension for its extension
value pdf. -/
theorem template_path_resolution :
    (∀ root carpeta plantilla : String,
      odtTemplatePath root carpeta plantilla =
        root ++ "/" ++ carpeta ++ "/" ++ plantilla ++ ".odt")
    ∧ ".odt" = "." ++ GeneratorClass.extensionOf .odtC
    ∧ (∀ root carpeta plantilla : String,
      docxTemplatePath root carpeta plantilla =
        root ++ "/" ++ carpeta ++ "/" ++ plantilla ++ ".docx")
    ∧ ".docx" = "." ++ GeneratorClass.extensionOf .docxC
    ∧ (∀ carpeta plantilla : String,
      pdfTemplatePath carpeta plantilla = carpeta ++ "/" ++ plantilla ++ ".html")
    ∧ ".html" ≠ "." ++ GeneratorClass.extensionOf .pdfC :=
  ⟨fun _ _ _ => rfl, by decide, fun _ _ _ => rfl, by decide,
   fun _ _ => rfl, by decide⟩

/-- Claim C1 counterexample. The claim asserts the scratch file is removed on
every exit path of the ODT and DOCX generators. In the concrete run where the
template opens but rendering raises, the ODT generator propagates the error
past the os.unlink of line 107 (there is no try/finally) and the scratch file
created at line 98 survives on disk. -/
theorem odt_scratch_survives_failed_render_cex :
    odtGenerarRun ⟨"/app", fun _ => true, false, true, true, []⟩
        "certificado" "certificado_pdf" =
      (.error (.runtimeError "odt render failed"), ⟨true⟩) := rfl

/-- Claim C1 as amended: the scratch file is removed only on the success
path. For the ODT generator, where the scratch file is created before the
template is even opened, the scratch file is absent after the run exactly
when the run succeeded; each failing stage -- template open, render, pack,
scratch read-back -- propagates its error and leaves the scratch file on
disk. For the DOCX generator the template is opened before the scratch file
is created, so a template-open failure leaves no scratch file; after
creation, render, save and read-back failures each leave it, success removes
it, and the scratch file is absent exactly when the run succeeded or the
template failed to open. -/
theorem scratch_removed_only_on_success :
    (∀ (env : OdtEnv) (carpeta plantilla : String),
      (odtGenerarRun env carpeta plantilla).2.scratchExists = false ↔
        ∃ b, (odtGenerarRun env carpeta plantilla).1 = .ok b)
    ∧ (∀ (env : OdtEnv) (carpeta plantilla : String),
      env.template_open (odtTemplatePath env.root_path carpeta plantilla) = false →
      odtGenerarRun env carpeta plantilla =
        (.error (.runtimeError "ODTTemplate open failed"), ⟨true⟩))
    ∧ (∀ (env : OdtEnv) (carpeta plantilla : String),
      env.template_open (odtTemplatePath env.root_path carpeta plantilla) = true →
      env.render_ok = false →
      odtGenerarRun env carpeta plantilla =
        (.error (.runtimeError "odt render failed"), ⟨true⟩))
    ∧ (∀ (env : OdtEnv) (carpeta plantilla : String),
      env.template_open (odtTemplatePath env.root_path carpeta plantilla) = true →
      env.render_ok = true → env.pack_ok = false →
      odtGenerarRun env carpeta plantilla =
        (.error (.runtimeError "odt pack failed"), ⟨true⟩))
    ∧ (∀ (env : OdtEnv) (carpeta plantilla : String),
      env.template_open (odtTemplatePath env.root_path carpeta plantilla) = true →
      env.render_ok = true → env.pack_ok = true → env.read_ok = false →
      odtGenerarRun env carpeta plantilla =
        (.error (.runtimeError "odt scratch read failed"), ⟨true⟩))
    ∧ (∀ (env : OdtEnv) (carpeta plantilla : String),
      env.template_open (odtTemplatePath env.root_path carpeta plantilla) = true →
      env.render_ok = true → env.pack_ok = true → env.read_ok = true →
      odtGenerarRun env carpeta plantilla = (.ok env.packed_bytes, ⟨false⟩))
    ∧ (∀ (env : DocxEnv) (carpeta plantilla : String),
      (docxGenerarRun env carpeta plantilla).2.scratchExists = false ↔
        ((∃ b, (docxGenerarRun env carpeta plantilla).1 = .ok b)
          ∨ env.template_open (docxTemplatePath env.root_path carpeta plantilla) = false))
    ∧ (∀ (env : DocxEnv) (carpeta plantilla : String),
      env.template_open (docxTemplatePath env.root_path carpeta plantilla) = false →
      docxGenerarRun env carpeta plantilla =
        (.error (.runtimeError "DocxTemplate open failed"), ⟨false⟩))
    ∧ (∀ (env : DocxEnv) (carpeta plantilla : String),
      env.template_open (docxTemplatePath env.root_path carpeta plantilla) = true →
      env.render_ok = false →
      docxGenerarRun env carpeta plantilla =
        (.error (.runtimeError "docx render failed"), ⟨true⟩))
    ∧ (∀ (env : DocxEnv) (carpeta plantilla : String),
      env.template_open (docxTemplatePath env.root_path carpeta plantilla) = true →
      env.render_ok = true → env.save_ok = false →
      docxGenerarRun env carpeta plantilla =
        (.error (.runtimeError "docx save failed"), ⟨true⟩))
    ∧ (∀ (env : DocxEnv) (carpeta plantilla : String),
      env.template_open (docxTemplatePath env.root_path carpeta plantilla) = true →
      env.render_ok = true → env.save_ok = true → env.read_ok = false →
      docxGenerarRun env carpeta plantilla =
        (.error (.runtimeError "docx scratch read failed"), ⟨true⟩))
    ∧ (∀ (env : DocxEnv) (carpeta plantilla : String),
      env.template_open (docxTemplatePath env.root_path carpeta plantilla) = true →
      env.render_ok = true → env.save_ok = true → env.read_ok = true →
      docxGenerarRun env carpeta plantilla = (.ok env.packed_bytes, ⟨false⟩)) := by
  refine ⟨?_, ?_, ?_, ?_, ?_, ?_, ?_, ?_, ?_, ?_, ?_, ?_⟩
  · intro env c p
    cases h1 : env.template_open (odtTemplatePath env.root_path c p) <;>
      cases h2 : env.render_ok <;> cases h3 : env.pack_ok <;>
        cases h4 : env.read_ok <;> simp [odtGenerarRun, h1, h2, h3, h4]
  · intros; simp_all [odtGenerarRun]
  · intros; simp_all [odtGenerarRun]
  · intros; simp_all [odtGenerarRun]
  · intros; simp_all [odtGenerarRun]
  · intros; simp_all [odtGenerarRun]
  · intro env c p
    cases h1 : env.template_open (docxTemplatePath env.root_path c p) <;>
      cases h2 : env.render_ok <;> cases h3 : env.save_ok <;>
        cases h4 : env.read_ok <;> simp [docxGenerarRun, h1, h2, h3, h4]
  · intros; simp_all [docxGenerarRun]
  · intros; simp_all [docxGenerarRun]
  · intros; simp_all [docxGenerarRun]
  · intros; simp_all [docxGenerarRun]
  · intros; simp_all [docxGenerarRun]

/-- Witness for scratch_removed_only_on_success: one concrete run per stage
of each generator. Every failing ODT stage leaves the scratch file, the
failing DOCX template open (which precedes scratch creation) leaves none,
every later failing DOCX stage leaves it, and both success runs remove it. -/
theorem scratch_removed_only_on_success_witness :
    odtGenerarRun ⟨"/app", fun _ => false, true, true, true, []⟩ "c" "t" =
      (.error (.runtimeError "ODTTemplate open failed"), ⟨true⟩)
    ∧ odtGenerarRun ⟨"/app", fun _ => true, false, true, true, []⟩ "c" "t" =
      (.error (.runtimeError "odt render failed"), ⟨true⟩)
    ∧ odtGenerarRun ⟨"/app", fun _ => true, true, false, true, []⟩ "c" "t" =
      (.error (.runtimeError "odt pack failed"), ⟨true⟩)
    ∧ odtGenerarRun ⟨"/app", fun _ => true, true, true, false, []⟩ "c" "t" =
      (.error (.runtimeError "odt scratch read failed"), ⟨true⟩)
    ∧ odtGenerarRun ⟨"/app", fun _ => true, true, true, true, [80, 75]⟩ "c" "t" =
      (.ok [80, 75], ⟨false⟩)
    ∧ docxGenerarRun ⟨"/app", fun _ => false, true, true, true, []⟩ "c" "t" =
      (.error (.runtimeError "DocxTemplate open failed"), ⟨false⟩)
    ∧ docxGenerarRun ⟨"/app", fun _ => true, false, true, true, []⟩ "c" "t" =
      (.error (.runtimeError "docx render failed"), ⟨true⟩)
    ∧ docxGenerarRun ⟨"/app", fun _ => true, true, false, true, []⟩ "c" "t" =
      (.error (.runtimeError "docx save failed"), ⟨true⟩)
    ∧ docxGenerarRun ⟨"/app", fun _ => true, true, true, false, []⟩ "c" "t" =
      (.error (.runtimeError "docx scratch read failed"), ⟨true⟩)
    ∧ docxGenerarRun ⟨"/app", fun _ => true, true, true, true, [80, 75]⟩ "c" "t" =
      (.ok [80, 75], ⟨false⟩) := by
  have T := scratch_removed_only_on_success
  exact ⟨T.2.1 ⟨"/app", fun _ => false, true, true, true, []⟩ "c" "t" rfl,
    T.2.2.1 ⟨"/app", fun _ => true, false, true, true, []⟩ "c" "t" rfl rfl,
    T.2.2.2.1 ⟨"/app", fun _ => true, true, false, true, []⟩ "c" "t" rfl rfl rfl,
    T.2.2.2.2.1 ⟨"/app", fun _ => true, true, true, false, []⟩ "c" "t"
      rfl rfl rfl rfl,
    T.2.2.2.2.2.1 ⟨"/app", fun _ => true, true, true, true, [80, 75]⟩ "c" "t"
      rfl rfl rfl rfl,
    T.2.2.2.2.2.2.2.1 ⟨"/app", fun _ => false, true, true, true, []⟩ "c" "t" rfl,
    T.2.2.2.2.2.2.2.2.1 ⟨"/app", fun _ => true, false, true, true, []⟩ "c" "t"
      rfl rfl,
    T.2.2.2.2.2.2.2.2.2.1 ⟨"/app", fun _ => true, true, false, true, []⟩ "c" "t"
      rfl rfl rfl,
    T.2.2.2.2.2.2.2.2.2.2.1 ⟨"/app", fun _ => true, true, true, false, []⟩
      "c" "t" rfl rfl rfl rfl,
    T.2.2.2.2.2.2.2.2.2.2.2 ⟨"/app", fun _ => true, true, true, true, [80, 75]⟩
      "c" "t" rfl rfl rfl rfl⟩
